import Mathlib

/-!
Shallow embedding of the replayer-triples log file loader of the
traffic-comparator repository (src/traffic_comparator/log_file_loader.py).

The loader reads one JSON object ("triple") per line, extracts a request
record and two response records (primary and shadow), converts them to
domain entities, and wires the two resulting request/response pairs into a
mutual two-node reference cycle.  Machine-level Python details are embedded
as follows: Python dicts become insertion-ordered association lists with
unique keys, Python exceptions become an explicit error type threaded with
Except, and object identity (the id() of a Request or RequestResponsePair)
becomes an index into an explicit heap.
-/

namespace TrafficComparator

/-- JSON values as produced by the Python json module.  Integer literals
become `num`; literals carrying a fraction or an exponent (Python floats)
are kept as their source text in `fnum`, since IEEE floating point
arithmetic is outside the scope of this embedding.  Objects are Python
dicts: insertion-ordered association lists with unique keys. -/
inductive Json where
  | null : Json
  | bool (b : Bool) : Json
  | num (n : Int) : Json
  | fnum (lit : String) : Json
  | str (s : String) : Json
  | arr (items : List Json) : Json
  | obj (fields : List (String × Json)) : Json

/-- Python dict lookup `d[k]` / `k in d` on an association list. -/
def getVal : List (String × Json) → String → Option Json
  | [], _ => none
  | (k2, v) :: rest, k => if k2 = k then some v else getVal rest k

/-- Removal of a key from a Python dict.  A dict has unique keys, so
removing every entry carrying the key agrees with `dict.pop` on every
state reachable from the Python program. -/
def eraseKey : List (String × Json) → String → List (String × Json)
  | [], _ => []
  | (k2, v) :: rest, k =>
    if k2 = k then eraseKey rest k else (k2, v) :: eraseKey rest k

/-- Python dict assignment `d[k] = v`: an existing key keeps its position
and gets the new value, a new key is appended. -/
def dictInsert : List (String × Json) → String → Json → List (String × Json)
  | [], k, v => [(k, v)]
  | (k2, v2) :: rest, k, v =>
    if k2 = k then (k2, v) :: rest else (k2, v2) :: dictInsert rest k v

/-- The whitespace characters skipped by the json module between tokens. -/
def isJsonWs (c : Char) : Bool :=
  c == ' ' || c == '\t' || c == '\n' || c == '\r'

/-- Skip JSON whitespace. -/
def skipWs : List Char → List Char
  | [] => []
  | c :: cs => if isJsonWs c then skipWs cs else c :: cs

/-- Take a maximal run of decimal digits. -/
def takeDigits : List Char → List Char × List Char
  | [] => ([], [])
  | c :: cs =>
    if c.isDigit then
      match takeDigits cs with
      | (ds, r) => (c :: ds, r)
    else ([], c :: cs)

/-- Decimal value of a digit run. -/
def digitsToNat (ds : List Char) : Nat :=
  ds.foldl (fun a c => a * 10 + (c.toNat - 48)) 0

/-- Value of one hexadecimal digit, if any. -/
def hexVal (c : Char) : Option Nat :=
  if c.isDigit then some (c.toNat - 48)
  else if 'a' ≤ c ∧ c ≤ 'f' then some (c.toNat - 87)
  else if 'A' ≤ c ∧ c ≤ 'F' then some (c.toNat - 55)
  else none

/-- The single-character string escapes of JSON. -/
def escChar (e : Char) : Option Char :=
  if e = '"' then some '"'
  else if e = '\\' then some '\\'
  else if e = '/' then some '/'
  else if e = 'b' then some (Char.ofNat 8)
  else if e = 'f' then some (Char.ofNat 12)
  else if e = 'n' then some (Char.ofNat 10)
  else if e = 'r' then some (Char.ofNat 13)
  else if e = 't' then some (Char.ofNat 9)
  else none

/-- Prepend a character to the string of a partial string-parse result. -/
def pushChar (c : Char) : Option (String × List Char) → Option (String × List Char)
  | some (s, r) => some (⟨c :: s.data⟩, r)
  | none => none

/-- The opening brace character, kept as a named constant. -/
def lbrace : Char := Char.ofNat 123

/-- The closing brace character, kept as a named constant. -/
def rbrace : Char := Char.ofNat 125

/-- Parse the body of a JSON string literal (the opening quote already
consumed), per the strict mode of the json module: raw control characters
are rejected, the eight simple escapes and the uXXXX escape are decoded,
and surrogate pairs are combined.  Python keeps a lone surrogate in the
resulting str; Lean strings cannot hold one, so a lone surrogate becomes
the NUL character (an idealization no theorem below depends on).  The fuel
argument strictly exceeds the input length at every call site. -/
def pString (fuel : Nat) (cs : List Char) : Option (String × List Char) :=
  match fuel with
  | 0 => none
  | Nat.succ f =>
    match cs with
    | [] => none
    | c :: rest =>
      if c = '"' then some ("", rest)
      else if c = '\\' then
        match rest with
        | [] => none
        | e :: rest2 =>
          if e = 'u' then
            match rest2 with
            | a :: b :: c2 :: d :: rest3 =>
              match hexVal a, hexVal b, hexVal c2, hexVal d with
              | some ha, some hb, some hc, some hd =>
                let code := ((ha * 16 + hb) * 16 + hc) * 16 + hd
                if 55296 ≤ code ∧ code ≤ 56319 then
                  match rest3 with
                  | e2 :: u2 :: a2 :: b2 :: c3 :: d2 :: rest4 =>
                    if e2 = '\\' ∧ u2 = 'u' then
                      match hexVal a2, hexVal b2, hexVal c3, hexVal d2 with
                      | some ha2, some hb2, some hc2, some hd2 =>
                        let code2 := ((ha2 * 16 + hb2) * 16 + hc2) * 16 + hd2
                        if 56320 ≤ code2 ∧ code2 ≤ 57343 then
                          pushChar (Char.ofNat (65536 + (code - 55296) * 1024 + (code2 - 56320)))
                            (pString f rest4)
                        else pushChar (Char.ofNat code) (pString f rest3)
                      | _, _, _, _ => pushChar (Char.ofNat code) (pString f rest3)
                    else pushChar (Char.ofNat code) (pString f rest3)
                  | _ => pushChar (Char.ofNat code) (pString f rest3)
                else pushChar (Char.ofNat code) (pString f rest3)
              | _, _, _, _ => none
            | _ => none
          else
            match escChar e with
            | some ch => pushChar ch (pString f rest2)
            | none => none
      else if c.toNat < 32 then none
      else pushChar c (pString f rest)

/-- Parse a JSON number.  An integer literal becomes `Json.num`; a literal
with a fraction or exponent part becomes `Json.fnum` carrying its source
text (a Python float).  A malformed fraction or exponent is left
unconsumed, exactly as the number regex of the json module stops there. -/
def parseNumber (cs : List Char) : Option (Json × List Char) :=
  let (sign, cs1) : List Char × List Char :=
    match cs with
    | '-' :: r => (['-'], r)
    | _ => ([], cs)
  match takeDigits cs1 with
  | ([], _) => none
  | (ds, r1) =>
    if 2 ≤ ds.length ∧ ds.head? = some '0' then none
    else
      let fracRes : List Char × List Char :=
        match r1 with
        | '.' :: rr =>
          match takeDigits rr with
          | ([], _) => ([], r1)
          | (fs, r3) => ('.' :: fs, r3)
        | _ => ([], r1)
      let r2 := fracRes.2
      let expRes : List Char × List Char :=
        match r2 with
        | c :: rr =>
          if c = 'e' ∨ c = 'E' then
            match rr with
            | s2 :: rr2 =>
              if s2 = '+' ∨ s2 = '-' then
                match takeDigits rr2 with
                | ([], _) => ([], r2)
                | (es, r4) => (c :: s2 :: es, r4)
              else
                match takeDigits rr with
                | ([], _) => ([], r2)
                | (es, r4) => (c :: es, r4)
            | [] => ([], r2)
          else ([], r2)
        | [] => ([], r2)
      if fracRes.1 = [] ∧ expRes.1 = [] then
        some (Json.num (if sign = [] then (digitsToNat ds : Int) else -(digitsToNat ds : Int)), r1)
      else
        some (Json.fnum (String.mk (sign ++ ds ++ fracRes.1 ++ expRes.1)), expRes.2)

/-- The work items of the recursive-descent JSON reader: a value, the items
of an array after the opening bracket, or the members of an object after
the opening brace. -/
inductive PTask where
  | value : PTask
  | arrItems (acc : List Json) : PTask
  | objItems (acc : List (String × Json)) : PTask

/-- Recursive-descent reader for the JSON grammar accepted by json.loads,
including the NaN and Infinity constants.  The fuel argument only bounds
recursion depth; every call site supplies more fuel than any input can
consume, mirroring the recursion limit of the Python parser. -/
def pRun (fuel : Nat) (task : PTask) (cs : List Char) : Option (Json × List Char) :=
  match fuel with
  | 0 => none
  | Nat.succ f =>
    match task with
    | PTask.value =>
      match skipWs cs with
      | [] => none
      | c :: rest =>
        if c = '"' then
          match pString f rest with
          | some (s, r) => some (Json.str s, r)
          | none => none
        else if c = '[' then
          match skipWs rest with
          | ']' :: r2 => some (Json.arr [], r2)
          | r1 => pRun f (PTask.arrItems []) r1
        else if c = lbrace then
          match skipWs rest with
          | [] => none
          | c2 :: r2 =>
            if c2 = rbrace then some (Json.obj [], r2)
            else pRun f (PTask.objItems []) (c2 :: r2)
        else
          match c :: rest with
          | 't' :: 'r' :: 'u' :: 'e' :: r => some (Json.bool true, r)
          | 'f' :: 'a' :: 'l' :: 's' :: 'e' :: r => some (Json.bool false, r)
          | 'n' :: 'u' :: 'l' :: 'l' :: r => some (Json.null, r)
          | 'N' :: 'a' :: 'N' :: r => some (Json.fnum "NaN", r)
          | 'I' :: 'n' :: 'f' :: 'i' :: 'n' :: 'i' :: 't' :: 'y' :: r =>
            some (Json.fnum "Infinity", r)
          | '-' :: 'I' :: 'n' :: 'f' :: 'i' :: 'n' :: 'i' :: 't' :: 'y' :: r =>
            some (Json.fnum "-Infinity", r)
          | cs2 => parseNumber cs2
    | PTask.arrItems acc =>
      match pRun f PTask.value cs with
      | none => none
      | some (v, r) =>
        match skipWs r with
        | ',' :: r2 => pRun f (PTask.arrItems (acc ++ [v])) r2
        | ']' :: r2 => some (Json.arr (acc ++ [v]), r2)
        | _ => none
    | PTask.objItems acc =>
      match skipWs cs with
      | [] => none
      | c :: rest =>
        if c = '"' then
          match pString f rest with
          | none => none
          | some (k, r1) =>
            match skipWs r1 with
            | ':' :: r2 =>
              match pRun f PTask.value r2 with
              | none => none
              | some (v, r3) =>
                match skipWs r3 with
                | ',' :: r4 => pRun f (PTask.objItems (dictInsert acc k v)) r4
                | c2 :: r5 =>
                  if c2 = rbrace then some (Json.obj (dictInsert acc k v), r5)
                  else none
                | [] => none
            | _ => none
        else none

/-- Embedding of json.loads applied to a str: parse one JSON value and
require that only whitespace follows it.  A None result stands for the
json.JSONDecodeError raised by the Python function. -/
def jsonLoads (s : String) : Option Json :=
  match pRun (s.length * 8 + 64) PTask.value s.data with
  | some (v, rest) => if skipWs rest = [] then some v else none
  | none => none

/-- The Python exceptions that the loader code can raise: KeyError from a
dict lookup or pop, ValueError and OverflowError from int(), TypeError from
applying an operation to a value of the wrong type, AttributeError from a
missing method, and json.JSONDecodeError from json.loads.  Each carries
exactly the data the Python exception carries. -/
inductive PyError where
  | keyError (key : String) : PyError
  | valueError (text : String) : PyError
  | typeError : PyError
  | attributeError : PyError
  | overflowError : PyError
  | jsonDecodeError : PyError

/-- A body after the best-effort JSON decoding: either the parsed JSON
value or the raw string kept on decode failure. -/
inductive Body where
  | js (v : Json) : Body
  | raw (s : String) : Body

/-- Modelled from the spec: the Request entity of traffic_comparator.data,
which is not under src.  One HTTP request; timestamp is unused by this
loader.  Fields hold whatever JSON values the record supplied. -/
structure Request where
  timestamp : Option Json
  http_method : Json
  uri : Json
  headers : List (String × Json)
  body : Body

/-- Modelled from the spec: the Response entity of traffic_comparator.data,
which is not under src.  One HTTP response; timestamp is unused by this
loader. -/
structure Response where
  timestamp : Option Json
  statuscode : Int
  headers : List (String × Json)
  body : Body
  latency : Json

/-- Modelled from the spec: the RequestResponsePair entity of
traffic_comparator.data, which is not under src.  The request and the
corresponding pair are references (Python object identity), embedded as
indices: `request` into the request heap and `corresponding_pair` into the
pair heap. -/
structure RequestResponsePair where
  request : Nat
  response : Response
  corresponding_pair : Option Nat

/-- The object heap of one loader run: Request objects and
RequestResponsePair objects, identified by their index. -/
structure Heap where
  requests : List Request
  pairs : List RequestResponsePair

/-- The code points stripped by Python int() around a numeric string, as
observed on CPython 3.11: the ASCII whitespace 0x09 to 0x0D and 0x20 plus
the Unicode space characters (NEL, NBSP, and the Zs, Zl, Zp separators). -/
def pySpaceCodes : List Nat :=
  [0x09, 0x0A, 0x0B, 0x0C, 0x0D, 0x20, 0x85, 0xA0,
   0x1680, 0x2000, 0x2001, 0x2002, 0x2003, 0x2004, 0x2005, 0x2006, 0x2007,
   0x2008, 0x2009, 0x200A, 0x2028, 0x2029, 0x202F, 0x205F, 0x3000]

/-- Whether a character is whitespace for Python int() on strings. -/
def isPySpace (c : Char) : Bool :=
  pySpaceCodes.contains c.toNat

/-- The first code point of each run of ten Unicode decimal digits
(general category Nd, Unicode 14, as shipped with CPython 3.11, which
maps them through Py_UNICODE_TODECIMAL); each run assigns the values 0
through 9.  The exact set tracks the Unicode version the interpreter was
built with. -/
def ndZeroStarts : List Nat :=
  [0x30, 0x660, 0x6F0, 0x7C0, 0x966, 0x9E6, 0xA66, 0xAE6, 0xB66, 0xBE6,
   0xC66, 0xCE6, 0xD66, 0xDE6, 0xE50, 0xED0, 0xF20, 0x1040, 0x1090, 0x17E0,
   0x1810, 0x1946, 0x19D0, 0x1A80, 0x1A90, 0x1B50, 0x1BB0, 0x1C40, 0x1C50,
   0xA620, 0xA8D0, 0xA900, 0xA9D0, 0xA9F0, 0xAA50, 0xABF0, 0xFF10,
   0x104A0, 0x10D30, 0x11066, 0x110F0, 0x11136, 0x111D0, 0x112F0, 0x11450,
   0x114D0, 0x11650, 0x116C0, 0x11730, 0x118E0, 0x11950, 0x11C50, 0x11D50,
   0x11DA0, 0x16A60, 0x16AC0, 0x16B50,
   0x1D7CE, 0x1D7D8, 0x1D7E2, 0x1D7EC, 0x1D7F6,
   0x1E140, 0x1E2F0, 0x1E950, 0x1FBF0]

/-- Decimal value of a Unicode decimal digit, if the character is one. -/
def unicodeDigitVal (c : Char) : Option Nat :=
  match ndZeroStarts.find? (fun s => decide (s ≤ c.toNat) && decide (c.toNat < s + 10)) with
  | some s => some (c.toNat - s)
  | none => none

/-- Digit run of a Python integer string after the optional sign, per the
int() grammar digit (["_"] digit)*: Unicode decimal digits, with a single
underscore allowed only between two digits.  Returns the decimal value,
continuing an accumulator. -/
def parsePyDigitsAux : List Char → Nat → Option Nat
  | [], acc => some acc
  | ['_'], _ => none
  | '_' :: c :: rest, acc =>
    match unicodeDigitVal c with
    | some v => parsePyDigitsAux rest (acc * 10 + v)
    | none => none
  | c :: rest, acc =>
    match unicodeDigitVal c with
    | some v => parsePyDigitsAux rest (acc * 10 + v)
    | none => none

/-- Digit run of a Python integer string: must start with a digit. -/
def parsePyDigits : List Char → Option Nat
  | [] => none
  | c :: rest =>
    match unicodeDigitVal c with
    | some v => parsePyDigitsAux rest v
    | none => none

/-- Python int() applied to a str: strip Unicode whitespace, accept an
optional ASCII sign followed by Unicode decimal digits with optional
single-underscore grouping, reject everything else (including float
notation).  So int("1_0") is 10 and Arabic-Indic digits are accepted,
exactly as in the interpreter. -/
def pyIntOfString (s : String) : Option Int :=
  let cs := (((s.data.dropWhile isPySpace).reverse).dropWhile isPySpace).reverse
  let signed : Bool × List Char :=
    match cs with
    | '+' :: r => (false, r)
    | '-' :: r => (true, r)
    | r => (false, r)
  match parsePyDigits signed.2 with
  | some n => some (if signed.1 then -(n : Int) else (n : Int))
  | none => none

/-- Python int() applied to a float, via the literal text kept in
`Json.fnum`: NaN raises ValueError, the infinities raise OverflowError, a
finite literal truncates toward zero.  The truncation is computed on the
exact decimal value; IEEE rounding of the literal is outside the scope of
this embedding, and no theorem below depends on this function. -/
def floatIntOfLit (lit : String) : Except PyError Int :=
  if lit = "NaN" then Except.error (PyError.valueError lit)
  else if lit = "Infinity" then Except.error PyError.overflowError
  else if lit = "-Infinity" then Except.error PyError.overflowError
  else
    let signed : Bool × List Char :=
      match lit.data with
      | '-' :: r => (true, r)
      | r => (false, r)
    let intRes := takeDigits signed.2
    let fracRes : List Char × List Char :=
      match intRes.2 with
      | '.' :: rr => takeDigits rr
      | r => ([], r)
    let expSigned : Bool × List Char :=
      match fracRes.2 with
      | 'e' :: '-' :: rr => (true, rr)
      | 'e' :: '+' :: rr => (false, rr)
      | 'e' :: rr => (false, rr)
      | 'E' :: '-' :: rr => (true, rr)
      | 'E' :: '+' :: rr => (false, rr)
      | 'E' :: rr => (false, rr)
      | r => (false, r)
    let es := (takeDigits expSigned.2).1
    let e : Int :=
      (if expSigned.1 then -(digitsToNat es : Int) else (digitsToNat es : Int))
        - (fracRes.1.length : Int)
    let m : Nat := digitsToNat (intRes.1 ++ fracRes.1)
    let mag : Nat := if 0 ≤ e then m * 10 ^ e.toNat else m / 10 ^ (-e).toNat
    Except.ok (if signed.1 then -(mag : Int) else (mag : Int))

/-- Python int() applied to an arbitrary value, as used on the Status-Code
field: ints pass through, floats truncate, bools count as ints (a Python
bool is an int subclass, so int(True) is 1), strings go through the
string conversion, and every other type raises TypeError. -/
def pyInt : Json → Except PyError Int
  | Json.num n => Except.ok n
  | Json.fnum lit => floatIntOfLit lit
  | Json.bool b => Except.ok (if b then 1 else 0)
  | Json.str s =>
    match pyIntOfString s with
    | some n => Except.ok n
    | none => Except.error (PyError.valueError s)
  | _ => Except.error PyError.typeError

/-- Embedding of ReplayerTriplesFileLoader.ignored_fields
(log_file_loader.py line 83). -/
def ignored_fields : List String := ["Reason-Phrase", "HTTP-Version"]

/-- Embedding of ReplayerTriplesFileLoader._parseBodyAsJson
(log_file_loader.py lines 85 to 91): json.loads on the raw body, keeping
the raw value on json.JSONDecodeError.  json.loads raises TypeError on a
non-string argument, and that exception is not caught there. -/
def parseBodyAsJson : Json → Except PyError Body
  | Json.str s =>
    match jsonLoads s with
    | some v => Except.ok (Body.js v)
    | none => Except.ok (Body.raw s)
  | _ => Except.error PyError.typeError

/-- Python dict.pop with no default: the value together with the dict
without the key, or KeyError. -/
def popField (d : List (String × Json)) (k : String) :
    Except PyError (Json × List (String × Json)) :=
  match getVal d k with
  | some v => Except.ok (v, eraseKey d k)
  | none => Except.error (PyError.keyError k)

/-- Embedding of the ignored-fields loop shared by _parseResponse and
_parseRequest (log_file_loader.py lines 101 to 104 and 118 to 121): pop
each ignored field when present. -/
def discardIgnored (d : List (String × Json)) : List (String × Json) :=
  ignored_fields.foldl
    (fun acc field => if (getVal acc field).isSome then eraseKey acc field else acc) d

/-- Embedding of ReplayerTriplesFileLoader._parseResponse
(log_file_loader.py lines 93 to 108) on a dict record: pop body and decode
it, pop response_time_ms verbatim into latency, pop Status-Code through
int(), discard the ignored fields, and keep the rest as headers. -/
def parseResponse (responsedata : List (String × Json)) : Except PyError Response :=
  match popField responsedata "body" with
  | Except.error e => Except.error e
  | Except.ok (rawbody, d1) =>
    match parseBodyAsJson rawbody with
    | Except.error e => Except.error e
    | Except.ok body =>
      match popField d1 "response_time_ms" with
      | Except.error e => Except.error e
      | Except.ok (latency, d2) =>
        match popField d2 "Status-Code" with
        | Except.error e => Except.error e
        | Except.ok (sc, d3) =>
          match pyInt sc with
          | Except.error e => Except.error e
          | Except.ok statuscode =>
            Except.ok
              { timestamp := none, statuscode := statuscode,
                headers := discardIgnored d3, body := body, latency := latency }

/-- Embedding of ReplayerTriplesFileLoader._parseRequest
(log_file_loader.py lines 110 to 125) on a dict record: pop body and
decode it, pop Method and Request-URI verbatim, discard the ignored
fields, and keep the rest as headers. -/
def parseRequest (requestdata : List (String × Json)) : Except PyError Request :=
  match popField requestdata "body" with
  | Except.error e => Except.error e
  | Except.ok (rawbody, d1) =>
    match parseBodyAsJson rawbody with
    | Except.error e => Except.error e
    | Except.ok body =>
      match popField d1 "Method" with
      | Except.error e => Except.error e
      | Except.ok (http_method, d2) =>
        match popField d2 "Request-URI" with
        | Except.error e => Except.error e
        | Except.ok (uri, d3) =>
          Except.ok
            { timestamp := none, http_method := http_method, uri := uri,
              headers := discardIgnored d3, body := body }

/-- _parseResponse applied to an arbitrary section value: a non-dict has
no pop method (AttributeError), except a list, whose pop rejects a string
argument (TypeError). -/
def parseResponseJson : Json → Except PyError Response
  | Json.obj d => parseResponse d
  | Json.arr _ => Except.error PyError.typeError
  | _ => Except.error PyError.attributeError

/-- _parseRequest applied to an arbitrary section value, with the same
non-dict behavior as parseResponseJson. -/
def parseRequestJson : Json → Except PyError Request
  | Json.obj d => parseRequest d
  | Json.arr _ => Except.error PyError.typeError
  | _ => Except.error PyError.attributeError

/-- Python subscription item[k] as used on the decoded line: a dict
yields the value or KeyError, every other JSON value raises TypeError. -/
def getSection : Json → String → Except PyError Json
  | Json.obj d, k =>
    match getVal d k with
    | some v => Except.ok v
    | none => Except.error (PyError.keyError k)
  | _, _ => Except.error PyError.typeError

/-- The parsing part of ReplayerTriplesFileLoader._parseLine
(log_file_loader.py lines 127 to 138): decode the line, look up the three
sections in source order, convert the request and the two responses.  The
construction of the pair objects from these values is `wirePairs`; the two
together embed _parseLine. -/
def parseTriple (line : String) : Except PyError (Request × Response × Response) :=
  match jsonLoads line with
  | none => Except.error PyError.jsonDecodeError
  | some item =>
    match getSection item "request" with
    | Except.error e => Except.error e
    | Except.ok requestdata =>
      match getSection item "primaryResponse" with
      | Except.error e => Except.error e
      | Except.ok primaryResponseData =>
        match getSection item "shadowResponse" with
        | Except.error e => Except.error e
        | Except.ok shadowResponseData =>
          match parseRequestJson requestdata with
          | Except.error e => Except.error e
          | Except.ok request =>
            match parseResponseJson primaryResponseData with
            | Except.error e => Except.error e
            | Except.ok primaryResponse =>
              match parseResponseJson shadowResponseData with
              | Except.error e => Except.error e
              | Except.ok shadowResponse =>
                Except.ok (request, primaryResponse, shadowResponse)

/-- In-place update of the corresponding_pair attribute of the pair object
at an index (the assignment on log_file_loader.py line 142). -/
def setCorr : List RequestResponsePair → Nat → Nat → List RequestResponsePair
  | [], _, _ => []
  | p :: rest, 0, j => { p with corresponding_pair := some j } :: rest
  | p :: rest, Nat.succ i, j => p :: setCorr rest i j

/-- The object-construction part of _parseLine (log_file_loader.py lines
137 to 144): allocate the shared Request, allocate the primary pair with
no corresponding pair yet, allocate the shadow pair referencing the
primary pair, then complete the cycle by mutating the primary pair.
Returns the new heap and the indices of the two pairs. -/
def wirePairs (h : Heap) (request : Request) (primaryResponse shadowResponse : Response) :
    Heap × Nat × Nat :=
  let reqId := h.requests.length
  let requests2 := h.requests ++ [request]
  let primaryId := h.pairs.length
  let pairs2 := h.pairs ++
    [{ request := reqId, response := primaryResponse, corresponding_pair := none }]
  let shadowId := pairs2.length
  let pairs3 := pairs2 ++
    [{ request := reqId, response := shadowResponse, corresponding_pair := some primaryId }]
  let pairs4 := setCorr pairs3 primaryId shadowId
  (⟨requests2, pairs4⟩, primaryId, shadowId)

/-- Embedding of ReplayerTriplesFileLoader._parseLine (log_file_loader.py
lines 127 to 144): parse the triple, then build and wire the two pair
objects.  On any error the heap is unchanged and nothing is returned,
matching the exception discarding every local object. -/
def parseLine (h : Heap) (line : String) : Except PyError (Heap × Nat × Nat) :=
  match parseTriple line with
  | Except.error e => Except.error e
  | Except.ok (request, primaryResponse, shadowResponse) =>
    Except.ok (wirePairs h request primaryResponse shadowResponse)

/-- Whether a line parses successfully: parseLine succeeds on it from any
heap, since the heap only supplies fresh indices. -/
def tripleOk (line : String) : Bool :=
  match parseTriple line with
  | Except.ok _ => true
  | Except.error _ => false

/-- One diagnostic record written by the batch loader for a skipped line:
the file path, the line number within that file counted from 0, and the
exception (the logger.info call on log_file_loader.py lines 159 to 160). -/
structure Diag where
  path : String
  lineNo : Nat
  err : PyError

/-- Embedding of the per-file loop of ReplayerTriplesFileLoader.load
(log_file_loader.py lines 151 to 160): for each line try _parseLine,
append the primary pair id and the shadow pair id to the two streams on
success, record a diagnostic and continue on any error. -/
def loadFile (h : Heap) (path : String) (lines : List String) (i : Nat) :
    Heap × List Nat × List Nat × List Diag :=
  match lines with
  | [] => (h, [], [], [])
  | line :: rest =>
    match parseLine h line with
    | Except.ok (h1, p, s) =>
      match loadFile h1 path rest (i + 1) with
      | (h2, ps, ss, ds) => (h2, p :: ps, s :: ss, ds)
    | Except.error e =>
      match loadFile h path rest (i + 1) with
      | (h2, ps, ss, ds) => (h2, ps, ss, ⟨path, i, e⟩ :: ds)

/-- The loop over files of ReplayerTriplesFileLoader.load, threading the
heap and concatenating the streams in file order. -/
def loadFiles (h : Heap) : List (String × List String) → Heap × List Nat × List Nat × List Diag
  | [] => (h, [], [], [])
  | (path, lines) :: rest =>
    match loadFile h path lines 0 with
    | (h1, ps, ss, ds) =>
      match loadFiles h1 rest with
      | (h2, ps2, ss2, ds2) => (h2, ps ++ ps2, ss ++ ss2, ds ++ ds2)

/-- Embedding of ReplayerTriplesFileLoader.load (log_file_loader.py lines
146 to 162): each input file given as its path and its list of lines;
returns the final heap, the primary stream, the shadow stream (as pair
indices), and the recorded diagnostics. -/
def load (files : List (String × List String)) : Heap × List Nat × List Nat × List Diag :=
  loadFiles ⟨[], []⟩ files

/-- Embedding of ReplayerTriplesFileLoader.load_from_stdin
(log_file_loader.py lines 164 to 167): standard input given as its list of
lines; yields one (primaryPair, shadowPair) index tuple per line until the
input ends or _parseLine raises, in which case the error escapes to the
consumer of the generator and nothing further is yielded. -/
def load_from_stdin (h : Heap) : List String → Heap × List (Nat × Nat) × Option PyError
  | [] => (h, [], none)
  | line :: rest =>
    match parseLine h line with
    | Except.error e => (h, [], some e)
    | Except.ok (h1, p, s) =>
      match load_from_stdin h1 rest with
      | (h2, ps, err) => (h2, (p, s) :: ps, err)

/-! ### Dictionary lemmas -/

theorem getVal_eraseKey_self (d : List (String × Json)) (k : String) :
    getVal (eraseKey d k) k = none := by
  induction d with
  | nil => rfl
  | cons kv rest ih =>
    obtain ⟨k2, v⟩ := kv
    by_cases hk : k2 = k
    · simp [eraseKey, hk, ih]
    · simp [eraseKey, getVal, hk, ih]

theorem getVal_eraseKey_ne (d : List (String × Json)) (k k2 : String) (hne : k ≠ k2) :
    getVal (eraseKey d k2) k = getVal d k := by
  induction d with
  | nil => rfl
  | cons kv rest ih =>
    obtain ⟨k3, v⟩ := kv
    by_cases hk : k3 = k2
    · subst hk
      have hkk : ¬ k3 = k := fun hc => hne hc.symm
      simp [eraseKey, getVal, hkk, ih]
    · by_cases hk3 : k3 = k
      · subst hk3
        simp [eraseKey, getVal, hk]
      · simp [eraseKey, getVal, hk, hk3, ih]

theorem getVal_discardIgnored_ne (d : List (String × Json)) (k : String)
    (h1 : k ≠ "Reason-Phrase") (h2 : k ≠ "HTTP-Version") :
    getVal (discardIgnored d) k = getVal d k := by
  have step : ∀ (d2 : List (String × Json)) (f : String), k ≠ f →
      getVal (if (getVal d2 f).isSome then eraseKey d2 f else d2) k = getVal d2 k := by
    intro d2 f hf
    by_cases hs : (getVal d2 f).isSome
    · simp [hs, getVal_eraseKey_ne d2 k f hf]
    · simp [hs]
  simp only [discardIgnored, ignored_fields, List.foldl]
  rw [step _ "HTTP-Version" h2, step _ "Reason-Phrase" h1]

theorem discardIgnored_reason (d : List (String × Json)) :
    getVal (discardIgnored d) "Reason-Phrase" = none := by
  simp only [discardIgnored, ignored_fields, List.foldl]
  have h1 : getVal
      (if (getVal d "Reason-Phrase").isSome then eraseKey d "Reason-Phrase" else d)
      "Reason-Phrase" = none := by
    cases hv : getVal d "Reason-Phrase" with
    | none => simp [hv]
    | some v => simp [hv, getVal_eraseKey_self]
  set d1 := if (getVal d "Reason-Phrase").isSome then eraseKey d "Reason-Phrase" else d
  cases hv2 : getVal d1 "HTTP-Version" with
  | none => simp only [hv2, Option.isSome_none, Bool.false_eq_true, if_false]; exact h1
  | some v =>
    simp only [hv2, Option.isSome_some, if_true]
    rw [getVal_eraseKey_ne d1 "Reason-Phrase" "HTTP-Version" (by decide)]
    exact h1

theorem discardIgnored_http (d : List (String × Json)) :
    getVal (discardIgnored d) "HTTP-Version" = none := by
  simp only [discardIgnored, ignored_fields, List.foldl]
  set d1 := if (getVal d "Reason-Phrase").isSome then eraseKey d "Reason-Phrase" else d
  cases hv2 : getVal d1 "HTTP-Version" with
  | none => simp only [hv2, Option.isSome_none, Bool.false_eq_true, if_false]
  | some v =>
    simp only [hv2, Option.isSome_some, if_true]
    exact getVal_eraseKey_self d1 "HTTP-Version"

/-! ### Shape lemmas for the field extractors -/

theorem parseResponse_ok_shape (d : List (String × Json)) (r : Response)
    (h : parseResponse d = Except.ok r) :
    ∃ rawbody latency sc statuscode body,
      getVal d "body" = some rawbody ∧
      parseBodyAsJson rawbody = Except.ok body ∧
      getVal (eraseKey d "body") "response_time_ms" = some latency ∧
      getVal (eraseKey (eraseKey d "body") "response_time_ms") "Status-Code" = some sc ∧
      pyInt sc = Except.ok statuscode ∧
      r = { timestamp := none, statuscode := statuscode,
            headers := discardIgnored
              (eraseKey (eraseKey (eraseKey d "body") "response_time_ms") "Status-Code"),
            body := body, latency := latency } := by
  unfold parseResponse popField at h
  cases h1 : getVal d "body" with
  | none => rw [h1] at h; exact absurd h (by simp)
  | some rawbody =>
    rw [h1] at h
    simp only at h
    cases h2 : parseBodyAsJson rawbody with
    | error e => rw [h2] at h; exact absurd h (by simp)
    | ok body =>
      rw [h2] at h
      simp only at h
      cases h3 : getVal (eraseKey d "body") "response_time_ms" with
      | none => rw [h3] at h; exact absurd h (by simp)
      | some latency =>
        rw [h3] at h
        simp only at h
        cases h4 : getVal (eraseKey (eraseKey d "body") "response_time_ms") "Status-Code" with
        | none => rw [h4] at h; exact absurd h (by simp)
        | some sc =>
          rw [h4] at h
          simp only at h
          cases h5 : pyInt sc with
          | error e => rw [h5] at h; exact absurd h (by simp)
          | ok statuscode =>
            rw [h5] at h
            simp only [Except.ok.injEq] at h
            exact ⟨rawbody, latency, sc, statuscode, body, rfl, h2, rfl, rfl, h5, h.symm⟩

theorem parseRequest_ok_shape (d : List (String × Json)) (r : Request)
    (h : parseRequest d = Except.ok r) :
    ∃ rawbody http_method uri body,
      getVal d "body" = some rawbody ∧
      parseBodyAsJson rawbody = Except.ok body ∧
      getVal (eraseKey d "body") "Method" = some http_method ∧
      getVal (eraseKey (eraseKey d "body") "Method") "Request-URI" = some uri ∧
      r = { timestamp := none, http_method := http_method, uri := uri,
            headers := discardIgnored
              (eraseKey (eraseKey (eraseKey d "body") "Method") "Request-URI"),
            body := body } := by
  unfold parseRequest popField at h
  cases h1 : getVal d "body" with
  | none => rw [h1] at h; exact absurd h (by simp)
  | some rawbody =>
    rw [h1] at h
    simp only at h
    cases h2 : parseBodyAsJson rawbody with
    | error e => rw [h2] at h; exact absurd h (by simp)
    | ok body =>
      rw [h2] at h
      simp only at h
      cases h3 : getVal (eraseKey d "body") "Method" with
      | none => rw [h3] at h; exact absurd h (by simp)
      | some http_method =>
        rw [h3] at h
        simp only at h
        cases h4 : getVal (eraseKey (eraseKey d "body") "Method") "Request-URI" with
        | none => rw [h4] at h; exact absurd h (by simp)
        | some uri =>
          rw [h4] at h
          simp only [Except.ok.injEq] at h
          exact ⟨rawbody, http_method, uri, body, rfl, h2, rfl, rfl, h.symm⟩

/-! ### Wiring lemmas for the triple parser -/

theorem setCorr_append (l : List RequestResponsePair) (a : RequestResponsePair)
    (l2 : List RequestResponsePair) (j : Nat) :
    setCorr (l ++ a :: l2) l.length j = l ++ ({ a with corresponding_pair := some j } :: l2) := by
  induction l with
  | nil => rfl
  | cons x xs ih => simp [setCorr, ih]

theorem wirePairs_eq (h : Heap) (req : Request) (prim shad : Response) :
    wirePairs h req prim shad =
      (⟨h.requests ++ [req],
        h.pairs ++
          [{ request := h.requests.length, response := prim,
             corresponding_pair := some (h.pairs.length + 1) },
           { request := h.requests.length, response := shad,
             corresponding_pair := some h.pairs.length }]⟩,
       h.pairs.length, h.pairs.length + 1) := by
  unfold wirePairs
  simp only [List.append_assoc, List.cons_append, List.nil_append, List.length_append,
    List.length_cons, List.length_nil]
  rw [setCorr_append]

theorem parseLine_ok_shape (h : Heap) (line : String) (h2 : Heap) (p s : Nat)
    (hk : parseLine h line = Except.ok (h2, p, s)) :
    ∃ req prim shad, parseTriple line = Except.ok (req, prim, shad) ∧
      p = h.pairs.length ∧ s = h.pairs.length + 1 ∧
      h2.requests = h.requests ++ [req] ∧
      h2.pairs = h.pairs ++
        [{ request := h.requests.length, response := prim,
           corresponding_pair := some (h.pairs.length + 1) },
         { request := h.requests.length, response := shad,
           corresponding_pair := some h.pairs.length }] := by
  unfold parseLine at hk
  cases ht : parseTriple line with
  | error e => rw [ht] at hk; exact absurd hk (by simp)
  | ok triple =>
    obtain ⟨req, prim, shad⟩ := triple
    rw [ht] at hk
    simp only [Except.ok.injEq] at hk
    rw [wirePairs_eq] at hk
    injection hk with hh rest
    injection rest with hp hs
    subst hh
    subst hp
    subst hs
    exact ⟨req, prim, shad, rfl, rfl, rfl, rfl, rfl⟩

theorem parseLine_error_of_parseTriple (h : Heap) (line : String) (e : PyError)
    (ht : parseTriple line = Except.error e) : parseLine h line = Except.error e := by
  unfold parseLine
  rw [ht]

theorem parseLine_ok_of_tripleOk (h : Heap) (line : String) (ht : tripleOk line = true) :
    ∃ h2 p s, parseLine h line = Except.ok (h2, p, s) := by
  unfold tripleOk at ht
  unfold parseLine
  cases hp : parseTriple line with
  | error e => rw [hp] at ht; exact absurd ht (by simp)
  | ok triple =>
    obtain ⟨req, prim, shad⟩ := triple
    exact ⟨_, _, _, rfl⟩

theorem tripleOk_of_parseLine_ok (h : Heap) (line : String) (h2 : Heap) (p s : Nat)
    (hk : parseLine h line = Except.ok (h2, p, s)) : tripleOk line = true := by
  obtain ⟨req, prim, shad, ht, _⟩ := parseLine_ok_shape h line h2 p s hk
  unfold tripleOk
  rw [ht]

/-! ### Loader invariants -/

theorem getElem?_append_two (l : List RequestResponsePair) (a b : RequestResponsePair) :
    (l ++ [a, b])[l.length]? = some a ∧ (l ++ [a, b])[l.length + 1]? = some b := by
  induction l with
  | nil => exact ⟨rfl, rfl⟩
  | cons x xs ih =>
    refine ⟨?_, ?_⟩
    · simpa using ih.1
    · simpa using ih.2

/-- The invariant of the per-file loop: the streams stay parallel, their
length counts the successfully parsed lines, pair objects already on the
heap are untouched, and the pairs appended for one line reference each
other. -/
theorem loadFile_inv (path : String) (lines : List String) :
    ∀ (h : Heap) (i : Nat) (h2 : Heap) (ps ss : List Nat) (ds : List Diag),
      loadFile h path lines i = (h2, ps, ss, ds) →
      ps.length = ss.length ∧
      ps.length = lines.countP (fun l => tripleOk l) ∧
      h.pairs.length ≤ h2.pairs.length ∧
      (∀ j, j < h.pairs.length → h2.pairs[j]? = h.pairs[j]?) ∧
      (∀ (k pi si : Nat), ps[k]? = some pi → ss[k]? = some si →
        ∃ (po so : RequestResponsePair),
          h2.pairs[pi]? = some po ∧ h2.pairs[si]? = some so ∧
          po.corresponding_pair = some si ∧ so.corresponding_pair = some pi) := by
  induction lines with
  | nil =>
    intro h i h2 ps ss ds heq
    simp only [loadFile, Prod.mk.injEq] at heq
    obtain ⟨rfl, rfl, rfl, rfl⟩ := heq
    refine ⟨rfl, rfl, Nat.le_refl _, fun j hj => rfl, fun k pi si hpi hsi => ?_⟩
    simp at hpi
  | cons line rest ih =>
    intro h i h2 ps ss ds heq
    cases hpl : parseLine h line with
    | ok res =>
      obtain ⟨h1, p, s⟩ := res
      rcases hLF : loadFile h1 path rest (i + 1) with ⟨hB, psB, ssB, dsB⟩
      simp only [loadFile, hpl, hLF, Prod.mk.injEq] at heq
      obtain ⟨rfl, rfl, rfl, rfl⟩ := heq
      obtain ⟨hlen, hcount, hle, hpres, hcorr⟩ := ih h1 (i + 1) hB psB ssB dsB hLF
      obtain ⟨req, prim, shad, ht, hp, hs, hreqs, hpairs⟩ :=
        parseLine_ok_shape h line h1 p s hpl
      have h1len : h1.pairs.length = h.pairs.length + 2 := by
        rw [hpairs]; simp
      have hokline : tripleOk line = true := tripleOk_of_parseLine_ok h line h1 p s hpl
      refine ⟨by simp [hlen], ?_, ?_, ?_, ?_⟩
      · simp [List.countP_cons, hokline]
        omega
      · omega
      · intro j hj
        rw [hpres j (by omega)]
        rw [hpairs]
        exact List.getElem?_append_left hj
      · intro k pi si hpi hsi
        cases k with
        | zero =>
          simp only [List.getElem?_cons_zero, Option.some.injEq] at hpi hsi
          subst hpi
          subst hsi
          subst hp
          subst hs
          have hAB := getElem?_append_two h.pairs
            { request := h.requests.length, response := prim,
              corresponding_pair := some (h.pairs.length + 1) }
            { request := h.requests.length, response := shad,
              corresponding_pair := some h.pairs.length }
          have hA := hAB.1
          have hB2 := hAB.2
          rw [← hpairs] at hA hB2
          exact ⟨_, _, (hpres _ (by omega)).trans hA, (hpres _ (by omega)).trans hB2, rfl, rfl⟩
        | succ k2 =>
          simp only [List.getElem?_cons_succ] at hpi hsi
          exact hcorr k2 pi si hpi hsi
    | error e =>
      rcases hLF : loadFile h path rest (i + 1) with ⟨hB, psB, ssB, dsB⟩
      simp only [loadFile, hpl, hLF, Prod.mk.injEq] at heq
      obtain ⟨rfl, rfl, rfl, rfl⟩ := heq
      obtain ⟨hlen, hcount, hle, hpres, hcorr⟩ := ih h (i + 1) hB psB ssB dsB hLF
      have hnotok : tripleOk line = false := by
        unfold tripleOk
        unfold parseLine at hpl
        cases hpt : parseTriple line with
        | error e2 => rfl
        | ok triple =>
          obtain ⟨req, prim, shad⟩ := triple
          rw [hpt] at hpl
          exact absurd hpl (by simp)
      refine ⟨hlen, ?_, hle, hpres, hcorr⟩
      simp [List.countP_cons, hnotok]
      omega

/-- The invariant of the over-files loop, composing `loadFile_inv`. -/
theorem loadFiles_inv (files : List (String × List String)) :
    ∀ (h : Heap) (h2 : Heap) (ps ss : List Nat) (ds : List Diag),
      loadFiles h files = (h2, ps, ss, ds) →
      ps.length = ss.length ∧
      ps.length = (files.map (fun f => f.2.countP (fun l => tripleOk l))).sum ∧
      h.pairs.length ≤ h2.pairs.length ∧
      (∀ j, j < h.pairs.length → h2.pairs[j]? = h.pairs[j]?) ∧
      (∀ (k pi si : Nat), ps[k]? = some pi → ss[k]? = some si →
        ∃ (po so : RequestResponsePair),
          h2.pairs[pi]? = some po ∧ h2.pairs[si]? = some so ∧
          po.corresponding_pair = some si ∧ so.corresponding_pair = some pi) := by
  induction files with
  | nil =>
    intro h h2 ps ss ds heq
    simp only [loadFiles, Prod.mk.injEq] at heq
    obtain ⟨rfl, rfl, rfl, rfl⟩ := heq
    refine ⟨rfl, rfl, Nat.le_refl _, fun j hj => rfl, fun k pi si hpi hsi => ?_⟩
    simp at hpi
  | cons file rest ih =>
    intro h h2 ps ss ds heq
    obtain ⟨path, lines⟩ := file
    rcases hLF : loadFile h path lines 0 with ⟨h1, ps1, ss1, ds1⟩
    rcases hLR : loadFiles h1 rest with ⟨hB, ps2, ss2, ds2⟩
    simp only [loadFiles, hLF, hLR, Prod.mk.injEq] at heq
    obtain ⟨rfl, rfl, rfl, rfl⟩ := heq
    obtain ⟨flen, fcount, fle, fpres, fcorr⟩ := loadFile_inv path lines h 0 h1 ps1 ss1 ds1 hLF
    obtain ⟨rlen, rcount, rle, rpres, rcorr⟩ := ih h1 hB ps2 ss2 ds2 hLR
    refine ⟨by simp [flen, rlen], ?_, by omega, ?_, ?_⟩
    · simp only [List.length_append, List.map_cons, List.sum_cons]
      omega
    · intro j hj
      rw [rpres j (by omega)]
      exact fpres j hj
    · intro k pi si hpi hsi
      by_cases hk : k < ps1.length
      · rw [List.getElem?_append_left hk] at hpi
        rw [List.getElem?_append_left (flen ▸ hk)] at hsi
        obtain ⟨po, so, hpo, hso, hc1, hc2⟩ := fcorr k pi si hpi hsi
        have hpiLt : pi < h1.pairs.length := by
          rcases List.getElem?_eq_some.mp hpo with ⟨hlt, _⟩
          exact hlt
        have hsiLt : si < h1.pairs.length := by
          rcases List.getElem?_eq_some.mp hso with ⟨hlt, _⟩
          exact hlt
        exact ⟨po, so, (rpres pi hpiLt).trans hpo, (rpres si hsiLt).trans hso, hc1, hc2⟩
      · rw [List.getElem?_append_right (Nat.le_of_not_lt hk)] at hpi
        rw [List.getElem?_append_right (flen ▸ Nat.le_of_not_lt hk)] at hsi
        rw [← flen] at hsi
        exact rcorr (k - ps1.length) pi si hpi hsi

/-! ### Concrete fixtures for witnesses -/

/-- A well-formed triple line: a request with one extra header, a primary
response with a string Status-Code, a shadow response with a numeric
Status-Code. -/
def sampleLine : String :=
  "\x7b\"request\": \x7b\"body\": \"\", \"Method\": \"GET\", \"Request-URI\": \"/\", \"Accept\": \"*/*\"\x7d, \"primaryResponse\": \x7b\"body\": \"\", \"response_time_ms\": 14, \"Status-Code\": \"200\"\x7d, \"shadowResponse\": \x7b\"body\": \"\", \"response_time_ms\": 199, \"Status-Code\": 200\x7d\x7d"

/-- The Request parsed from the request section of `sampleLine`. -/
def sampleRequest : Request :=
  { timestamp := none, http_method := Json.str "GET", uri := Json.str "/",
    headers := [("Accept", Json.str "*/*")], body := Body.raw "" }

/-- The Response parsed from the primaryResponse section of `sampleLine`. -/
def samplePrimary : Response :=
  { timestamp := none, statuscode := 200, headers := [], body := Body.raw "",
    latency := Json.num 14 }

/-- The Response parsed from the shadowResponse section of `sampleLine`. -/
def sampleShadow : Response :=
  { timestamp := none, statuscode := 200, headers := [], body := Body.raw "",
    latency := Json.num 199 }

/-- The heap produced by parsing `sampleLine` into an empty heap. -/
def sampleHeap : Heap :=
  ⟨[sampleRequest],
   [{ request := 0, response := samplePrimary, corresponding_pair := some 1 },
    { request := 0, response := sampleShadow, corresponding_pair := some 0 }]⟩

/-- Two input files: the first holds a valid line and a malformed line,
the second holds one valid line. -/
def sampleFiles : List (String × List String) :=
  [("a.log", [sampleLine, "nope"]), ("b.log", [sampleLine])]

/-! ### Reduction helpers shared by several claims -/

/-- Reduction of parseResponse on a record whose three known fields are
present, with a string body. -/
theorem parseResponse_of_fields (d : List (String × Json)) (sb : String) (tv sc : Json)
    (hb : getVal d "body" = some (Json.str sb))
    (ht : getVal d "response_time_ms" = some tv)
    (hsc : getVal d "Status-Code" = some sc) :
    parseResponse d =
      match pyInt sc with
      | Except.ok n =>
        Except.ok
          { timestamp := none, statuscode := n,
            headers := discardIgnored
              (eraseKey (eraseKey (eraseKey d "body") "response_time_ms") "Status-Code"),
            body := (match jsonLoads sb with
              | some v => Body.js v
              | none => Body.raw sb),
            latency := tv }
      | Except.error e => Except.error e := by
  have ht2 : getVal (eraseKey d "body") "response_time_ms" = some tv := by
    rw [getVal_eraseKey_ne _ _ "body" (by decide)]
    exact ht
  have hsc2 : getVal (eraseKey (eraseKey d "body") "response_time_ms") "Status-Code" = some sc := by
    rw [getVal_eraseKey_ne _ _ "response_time_ms" (by decide),
      getVal_eraseKey_ne _ _ "body" (by decide)]
    exact hsc
  cases hj : jsonLoads sb with
  | none =>
    cases hpy : pyInt sc with
    | ok n => simp [parseResponse, popField, hb, parseBodyAsJson, hj, ht2, hsc2, hpy]
    | error e => simp [parseResponse, popField, hb, parseBodyAsJson, hj, ht2, hsc2, hpy]
  | some v =>
    cases hpy : pyInt sc with
    | ok n => simp [parseResponse, popField, hb, parseBodyAsJson, hj, ht2, hsc2, hpy]
    | error e => simp [parseResponse, popField, hb, parseBodyAsJson, hj, ht2, hsc2, hpy]

/-- Error propagation of the streaming loader: after any run of good
lines, the first failing line surfaces its parse error to the consumer,
and only the pairs of the good lines before it were yielded. -/
theorem stdin_propagation (line : String) (post : List String) (e : PyError)
    (hline : parseTriple line = Except.error e) :
    ∀ (pre : List String), (∀ l ∈ pre, tripleOk l = true) → ∀ h : Heap,
      ∃ (h2 : Heap) (ps : List (Nat × Nat)),
        load_from_stdin h (pre ++ line :: post) = (h2, ps, some e) ∧
        ps.length = pre.length := by
  intro pre
  induction pre with
  | nil =>
    intro _ h
    refine ⟨h, [], ?_, rfl⟩
    simp [load_from_stdin, parseLine_error_of_parseTriple h line e hline]
  | cons l0 rest ih =>
    intro hpre h
    have h0 : tripleOk l0 = true := hpre l0 (by simp)
    obtain ⟨h1, p, s, hpl⟩ := parseLine_ok_of_tripleOk h l0 h0
    obtain ⟨h2, ps, hst, hlen⟩ := ih (fun l hl => hpre l (by simp [hl])) h1
    refine ⟨h2, (p, s) :: ps, ?_, by simp [hlen]⟩
    simp [load_from_stdin, hpl, hst]

/-! ### The claims -/

/-- C1: for every line the Triple Parser parses successfully, the two
returned RequestResponsePair objects form a symmetric two-node reference
cycle (the primary pair references the shadow pair as its
corresponding_pair and vice versa), and both hold the very same Request
object: the same reference into the request heap, which is object
identity, not mere structural equality. -/
theorem c1_parsed_pairs_form_cycle_and_share_request (h : Heap) (line : String)
    (h2 : Heap) (p s : Nat) (hk : parseLine h line = Except.ok (h2, p, s)) :
    ∃ (po so : RequestResponsePair),
      h2.pairs[p]? = some po ∧ h2.pairs[s]? = some so ∧
      po.corresponding_pair = some s ∧ so.corresponding_pair = some p ∧
      po.request = so.request ∧ po.request < h2.requests.length := by
  obtain ⟨req, prim, shad, ht, hp, hs, hreqs, hpairs⟩ := parseLine_ok_shape h line h2 p s hk
  subst hp
  subst hs
  have hAB := getElem?_append_two h.pairs
    { request := h.requests.length, response := prim,
      corresponding_pair := some (h.pairs.length + 1) }
    { request := h.requests.length, response := shad,
      corresponding_pair := some h.pairs.length }
  rw [← hpairs] at hAB
  refine ⟨_, _, hAB.1, hAB.2, rfl, rfl, rfl, ?_⟩
  rw [hreqs]
  simp

set_option maxRecDepth 100000 in
/-- Witness for C1: parsing the concrete `sampleLine` into an empty heap
gives the two mutually referencing pairs sharing request object 0. -/
theorem c1_witness :
    ∃ (po so : RequestResponsePair),
      sampleHeap.pairs[0]? = some po ∧ sampleHeap.pairs[1]? = some so ∧
      po.corresponding_pair = some 1 ∧ so.corresponding_pair = some 0 ∧
      po.request = so.request ∧ po.request < sampleHeap.requests.length :=
  c1_parsed_pairs_form_cycle_and_share_request ⟨[], []⟩ sampleLine sampleHeap 0 1 (by rfl)

/-- C2: batch loading returns two streams of equal length, that length is
the number of successfully parsed lines across all files (a line whose
parse raises contributes nothing to either stream and loading continues),
and the entries at each index i of the two streams reference each other as
corresponding pairs, hence come from the same line. -/
theorem c2_load_streams_parallel (files : List (String × List String))
    (h2 : Heap) (ps ss : List Nat) (ds : List Diag)
    (heq : load files = (h2, ps, ss, ds)) :
    ps.length = ss.length ∧
    ps.length = (files.map (fun f => f.2.countP (fun l => tripleOk l))).sum ∧
    ∀ (i pi si : Nat), ps[i]? = some pi → ss[i]? = some si →
      ∃ (po so : RequestResponsePair),
        h2.pairs[pi]? = some po ∧ h2.pairs[si]? = some so ∧
        po.corresponding_pair = some si ∧ so.corresponding_pair = some pi := by
  obtain ⟨hlen, hcount, hle, hpres, hcorr⟩ := loadFiles_inv files ⟨[], []⟩ h2 ps ss ds heq
  exact ⟨hlen, hcount, hcorr⟩

set_option maxRecDepth 400000 in
/-- Witness for C2: loading `sampleFiles` (three lines, one malformed)
gives parallel streams and mutually referencing entries at index 0. -/
theorem c2_witness :
    (load sampleFiles).2.1.length = (load sampleFiles).2.2.1.length ∧
    (load sampleFiles).2.1.length =
      (sampleFiles.map (fun f => f.2.countP (fun l => tripleOk l))).sum ∧
    (∃ (po so : RequestResponsePair),
      (load sampleFiles).1.pairs[0]? = some po ∧
      (load sampleFiles).1.pairs[1]? = some so ∧
      po.corresponding_pair = some 1 ∧ so.corresponding_pair = some 0) := by
  have h := c2_load_streams_parallel sampleFiles (load sampleFiles).1
    (load sampleFiles).2.1 (load sampleFiles).2.2.1 (load sampleFiles).2.2.2 rfl
  exact ⟨h.1, h.2.1, h.2.2 0 0 1 (by rfl) (by rfl)⟩

/-- C3: body decoding returns the parsed JSON value exactly when the raw
string is valid JSON, and otherwise returns the raw string unchanged
without raising; in particular the empty string is not valid JSON and is
kept as the empty string.  Both _parseRequest and _parseResponse decode
their body field through this one function, so the policy holds for
request and response bodies alike. -/
theorem c3_body_decoding_two_way_fallback (s : String) :
    parseBodyAsJson (Json.str s) =
      Except.ok (match jsonLoads s with
        | some v => Body.js v
        | none => Body.raw s) ∧
    parseBodyAsJson (Json.str "") = Except.ok (Body.raw "") := by
  constructor
  · cases hj : jsonLoads s <;> simp [parseBodyAsJson, hj]
  · rfl

/-- C4: the exact keys Reason-Phrase and HTTP-Version never appear in the
headers of any successfully converted response or request record,
whatever other fields the record carries, in whatever casing and
position. -/
theorem c4_ignored_fields_never_in_headers (d : List (String × Json)) :
    (∀ r : Response, parseResponse d = Except.ok r →
      getVal r.headers "Reason-Phrase" = none ∧ getVal r.headers "HTTP-Version" = none) ∧
    (∀ r : Request, parseRequest d = Except.ok r →
      getVal r.headers "Reason-Phrase" = none ∧ getVal r.headers "HTTP-Version" = none) := by
  constructor
  · intro r hr
    obtain ⟨rawbody, latency, sc, statuscode, body, hg1, hg2, hg3, hg4, hg5, hrEq⟩ :=
      parseResponse_ok_shape d r hr
    subst hrEq
    exact ⟨discardIgnored_reason _, discardIgnored_http _⟩
  · intro r hr
    obtain ⟨rawbody, http_method, uri, body, hg1, hg2, hg3, hg4, hrEq⟩ :=
      parseRequest_ok_shape d r hr
    subst hrEq
    exact ⟨discardIgnored_reason _, discardIgnored_http _⟩

/-- A response record carrying the discard-set fields in exact casing and
a colliding header in nonstandard casing. -/
def oddCaseRecord : List (String × Json) :=
  [("body", Json.str ""), ("response_time_ms", Json.num 14),
   ("Status-Code", Json.num 200), ("reason-phrase", Json.str "OK"),
   ("Reason-Phrase", Json.str "OK"), ("HTTP-Version", Json.str "HTTP/1.1")]

/-- Witness for C4: converting `oddCaseRecord` keeps the odd-cased
reason-phrase header but neither exact discard-set key. -/
theorem c4_witness :
    getVal ({ timestamp := none, statuscode := 200,
              headers := [("reason-phrase", Json.str "OK")], body := Body.raw "",
              latency := Json.num 14 } : Response).headers "Reason-Phrase" = none ∧
    getVal ({ timestamp := none, statuscode := 200,
              headers := [("reason-phrase", Json.str "OK")], body := Body.raw "",
              latency := Json.num 14 } : Response).headers "HTTP-Version" = none :=
  (c4_ignored_fields_never_in_headers oddCaseRecord).1 _ (by rfl)

/-- C5: every field whose key is neither in the known set nor in the
discard set survives into the headers mapping with exactly its original
key and value; no case normalization happens. -/
theorem c5_unknown_fields_kept_verbatim (d : List (String × Json)) (k : String) (v : Json) :
    (getVal d k = some v → k ≠ "body" → k ≠ "response_time_ms" → k ≠ "Status-Code" →
      k ≠ "Reason-Phrase" → k ≠ "HTTP-Version" →
      ∀ r : Response, parseResponse d = Except.ok r → getVal r.headers k = some v) ∧
    (getVal d k = some v → k ≠ "body" → k ≠ "Method" → k ≠ "Request-URI" →
      k ≠ "Reason-Phrase" → k ≠ "HTTP-Version" →
      ∀ r : Request, parseRequest d = Except.ok r → getVal r.headers k = some v) := by
  constructor
  · intro hk h1 h2 h3 h4 h5 r hr
    obtain ⟨rawbody, latency, sc, statuscode, body, hg1, hg2, hg3, hg4, hg5, hrEq⟩ :=
      parseResponse_ok_shape d r hr
    subst hrEq
    show getVal (discardIgnored
      (eraseKey (eraseKey (eraseKey d "body") "response_time_ms") "Status-Code")) k = some v
    rw [getVal_discardIgnored_ne _ k h4 h5,
      getVal_eraseKey_ne _ k "Status-Code" h3,
      getVal_eraseKey_ne _ k "response_time_ms" h2,
      getVal_eraseKey_ne _ k "body" h1]
    exact hk
  · intro hk h1 h2 h3 h4 h5 r hr
    obtain ⟨rawbody, http_method, uri, body, hg1, hg2, hg3, hg4, hrEq⟩ :=
      parseRequest_ok_shape d r hr
    subst hrEq
    show getVal (discardIgnored
      (eraseKey (eraseKey (eraseKey d "body") "Method") "Request-URI")) k = some v
    rw [getVal_discardIgnored_ne _ k h4 h5,
      getVal_eraseKey_ne _ k "Request-URI" h3,
      getVal_eraseKey_ne _ k "Method" h2,
      getVal_eraseKey_ne _ k "body" h1]
    exact hk

/-- Witness for C5: the odd-cased reason-phrase field of `oddCaseRecord`
appears verbatim in the headers of the converted response. -/
theorem c5_witness :
    getVal ({ timestamp := none, statuscode := 200,
              headers := [("reason-phrase", Json.str "OK")], body := Body.raw "",
              latency := Json.num 14 } : Response).headers "reason-phrase" = some (Json.str "OK") :=
  (c5_unknown_fields_kept_verbatim oddCaseRecord "reason-phrase" (Json.str "OK")).1
    (by rfl) (by decide) (by decide) (by decide) (by decide) (by decide) _ (by rfl)

/-- C6: for every input line decoding to a JSON object that lacks any of
the three sections request, primaryResponse or shadowResponse, the Triple
Parser fails with the KeyError of the first missing section lookup (the
MissingSectionError of the spec), naming a missing section, and returns no
partial result: the error aborts before any entity is built. -/
theorem c6_missing_section_keyerror (h : Heap) (line : String) (d : List (String × Json))
    (hj : jsonLoads line = some (Json.obj d))
    (hmiss : getVal d "request" = none ∨ getVal d "primaryResponse" = none ∨
      getVal d "shadowResponse" = none) :
    ∃ k : String, (k = "request" ∨ k = "primaryResponse" ∨ k = "shadowResponse") ∧
      getVal d k = none ∧ parseLine h line = Except.error (PyError.keyError k) := by
  cases h1 : getVal d "request" with
  | none =>
    exact ⟨"request", Or.inl rfl, h1,
      by simp [parseLine, parseTriple, hj, getSection, h1]⟩
  | some rd =>
    cases h2 : getVal d "primaryResponse" with
    | none =>
      exact ⟨"primaryResponse", Or.inr (Or.inl rfl), h2,
        by simp [parseLine, parseTriple, hj, getSection, h1, h2]⟩
    | some pd =>
      cases h3 : getVal d "shadowResponse" with
      | none =>
        exact ⟨"shadowResponse", Or.inr (Or.inr rfl), h3,
          by simp [parseLine, parseTriple, hj, getSection, h1, h2, h3]⟩
      | some sd =>
        rcases hmiss with hm | hm | hm
        · simp [h1] at hm
        · simp [h2] at hm
        · simp [h3] at hm

/-- Witness for C6: the empty JSON object lacks all three sections and
fails with the KeyError naming request. -/
theorem c6_witness :
    ∃ k : String, (k = "request" ∨ k = "primaryResponse" ∨ k = "shadowResponse") ∧
      getVal ([] : List (String × Json)) k = none ∧
      parseLine ⟨[], []⟩ "\x7b\x7d" = Except.error (PyError.keyError k) :=
  c6_missing_section_keyerror ⟨[], []⟩ "\x7b\x7d" [] (by rfl) (Or.inl rfl)

/-- Counterexample for C7: the error raised for a missing required field
carries only the field name, never the record kind: a request record and a
response record both lacking body raise the identical KeyError value, so
no record kind can be recovered from the error.  Moreover a request record
whose body field holds a non-string fails with a TypeError from the body
decode even though required fields Method and Request-URI are also
missing, so such a record does not fail with a missing-field error at
all. -/
theorem c7_counterexample :
    parseRequest [("Method", Json.str "GET"), ("Request-URI", Json.str "/")] =
      Except.error (PyError.keyError "body") ∧
    parseResponse [("response_time_ms", Json.num 14), ("Status-Code", Json.num 200)] =
      Except.error (PyError.keyError "body") ∧
    parseRequest [("body", Json.num 5)] = Except.error PyError.typeError := by
  exact ⟨by rfl, by rfl, by rfl⟩

/-- C7 as amended: when field extraction reaches a missing required field
(fields are popped in order body, Method, Request-URI for requests and
body, response_time_ms, Status-Code for responses), the extractor fails
with a KeyError naming exactly that field — identifying the field but not
the record kind — and any extractor error propagates unswallowed through
the Triple Parser. -/
theorem c7_missing_field_keyerror_propagates :
    (∀ d : List (String × Json), getVal d "body" = none →
      parseRequest d = Except.error (PyError.keyError "body")) ∧
    (∀ (d : List (String × Json)) (s : String), getVal d "body" = some (Json.str s) →
      getVal d "Method" = none →
      parseRequest d = Except.error (PyError.keyError "Method")) ∧
    (∀ (d : List (String × Json)) (s : String) (m : Json),
      getVal d "body" = some (Json.str s) → getVal d "Method" = some m →
      getVal d "Request-URI" = none →
      parseRequest d = Except.error (PyError.keyError "Request-URI")) ∧
    (∀ d : List (String × Json), getVal d "body" = none →
      parseResponse d = Except.error (PyError.keyError "body")) ∧
    (∀ (d : List (String × Json)) (s : String), getVal d "body" = some (Json.str s) →
      getVal d "response_time_ms" = none →
      parseResponse d = Except.error (PyError.keyError "response_time_ms")) ∧
    (∀ (d : List (String × Json)) (s : String) (t : Json),
      getVal d "body" = some (Json.str s) → getVal d "response_time_ms" = some t →
      getVal d "Status-Code" = none →
      parseResponse d = Except.error (PyError.keyError "Status-Code")) ∧
    (∀ (h : Heap) (line : String) (item rd pd sd : Json) (e : PyError),
      jsonLoads line = some item →
      getSection item "request" = Except.ok rd →
      getSection item "primaryResponse" = Except.ok pd →
      getSection item "shadowResponse" = Except.ok sd →
      parseRequestJson rd = Except.error e →
      parseLine h line = Except.error e) := by
  refine ⟨?_, ?_, ?_, ?_, ?_, ?_, ?_⟩
  · intro d hb
    simp [parseRequest, popField, hb]
  · intro d s hb hm
    have hm2 : getVal (eraseKey d "body") "Method" = none := by
      rw [getVal_eraseKey_ne _ _ "body" (by decide)]
      exact hm
    cases hj : jsonLoads s with
    | none => simp [parseRequest, popField, hb, parseBodyAsJson, hj, hm2]
    | some v => simp [parseRequest, popField, hb, parseBodyAsJson, hj, hm2]
  · intro d s m hb hm hu
    have hm2 : getVal (eraseKey d "body") "Method" = some m := by
      rw [getVal_eraseKey_ne _ _ "body" (by decide)]
      exact hm
    have hu2 : getVal (eraseKey (eraseKey d "body") "Method") "Request-URI" = none := by
      rw [getVal_eraseKey_ne _ _ "Method" (by decide),
        getVal_eraseKey_ne _ _ "body" (by decide)]
      exact hu
    cases hj : jsonLoads s with
    | none => simp [parseRequest, popField, hb, parseBodyAsJson, hj, hm2, hu2]
    | some v => simp [parseRequest, popField, hb, parseBodyAsJson, hj, hm2, hu2]
  · intro d hb
    simp [parseResponse, popField, hb]
  · intro d s hb ht
    have ht2 : getVal (eraseKey d "body") "response_time_ms" = none := by
      rw [getVal_eraseKey_ne _ _ "body" (by decide)]
      exact ht
    cases hj : jsonLoads s with
    | none => simp [parseResponse, popField, hb, parseBodyAsJson, hj, ht2]
    | some v => simp [parseResponse, popField, hb, parseBodyAsJson, hj, ht2]
  · intro d s t hb ht hsc
    have ht2 : getVal (eraseKey d "body") "response_time_ms" = some t := by
      rw [getVal_eraseKey_ne _ _ "body" (by decide)]
      exact ht
    have hsc2 : getVal (eraseKey (eraseKey d "body") "response_time_ms") "Status-Code" = none := by
      rw [getVal_eraseKey_ne _ _ "response_time_ms" (by decide),
        getVal_eraseKey_ne _ _ "body" (by decide)]
      exact hsc
    cases hj : jsonLoads s with
    | none => simp [parseResponse, popField, hb, parseBodyAsJson, hj, ht2, hsc2]
    | some v => simp [parseResponse, popField, hb, parseBodyAsJson, hj, ht2, hsc2]
  · intro h line item rd pd sd e hj hr hp2 hs2 he
    simp [parseLine, parseTriple, hj, hr, hp2, hs2, he]

/-- Witness for the amended C7: concrete records stopping at each of the
three response pops and at the request body pop. -/
theorem c7_witness :
    parseRequest [] = Except.error (PyError.keyError "body") ∧
    parseResponse [("body", Json.str "x")] =
      Except.error (PyError.keyError "response_time_ms") ∧
    parseResponse [("body", Json.str "x"), ("response_time_ms", Json.num 1)] =
      Except.error (PyError.keyError "Status-Code") := by
  refine ⟨c7_missing_field_keyerror_propagates.1 [] rfl, ?_, ?_⟩
  · exact c7_missing_field_keyerror_propagates.2.2.2.2.1 [("body", Json.str "x")] "x" rfl rfl
  · exact c7_missing_field_keyerror_propagates.2.2.2.2.2.1
      [("body", Json.str "x"), ("response_time_ms", Json.num 1)] "x" (Json.num 1) rfl rfl rfl

/-- Counterexample for C8: a JSON true for Status-Code is not numeric,
yet conversion does not fail with a FormatError: Python bool being an int
subclass, int(True) yields 1 and the record converts successfully with
statuscode 1. -/
theorem c8_counterexample :
    parseResponse [("body", Json.str ""), ("response_time_ms", Json.num 14),
        ("Status-Code", Json.bool true)] =
      Except.ok { timestamp := none, statuscode := 1, headers := [],
                  body := Body.raw "", latency := Json.num 14 } := by
  rfl

/-- C8 as amended: Status-Code goes through Python int(): integer values
pass through, strings are parsed as integers and a non-integer string
fails with the ValueError that the spec calls FormatError, booleans
convert to 0 or 1, and null fails with a TypeError. -/
theorem c8_statuscode_int_conversion (d : List (String × Json)) (sb : String) (tv : Json) :
    (∀ n : Int, getVal d "body" = some (Json.str sb) →
      getVal d "response_time_ms" = some tv →
      getVal d "Status-Code" = some (Json.num n) →
      Except.map (fun r => r.statuscode) (parseResponse d) = Except.ok n) ∧
    (∀ (s : String) (n : Int), getVal d "body" = some (Json.str sb) →
      getVal d "response_time_ms" = some tv →
      getVal d "Status-Code" = some (Json.str s) → pyIntOfString s = some n →
      Except.map (fun r => r.statuscode) (parseResponse d) = Except.ok n) ∧
    (∀ s : String, getVal d "body" = some (Json.str sb) →
      getVal d "response_time_ms" = some tv →
      getVal d "Status-Code" = some (Json.str s) → pyIntOfString s = none →
      parseResponse d = Except.error (PyError.valueError s)) ∧
    (∀ b : Bool, getVal d "body" = some (Json.str sb) →
      getVal d "response_time_ms" = some tv →
      getVal d "Status-Code" = some (Json.bool b) →
      Except.map (fun r => r.statuscode) (parseResponse d) =
        Except.ok (if b then (1 : Int) else 0)) ∧
    (getVal d "body" = some (Json.str sb) → getVal d "response_time_ms" = some tv →
      getVal d "Status-Code" = some Json.null →
      parseResponse d = Except.error PyError.typeError) := by
  refine ⟨?_, ?_, ?_, ?_, ?_⟩
  · intro n hb ht hsc
    rw [parseResponse_of_fields d sb tv (Json.num n) hb ht hsc]
    simp [pyInt, Except.map]
  · intro s n hb ht hsc hint
    rw [parseResponse_of_fields d sb tv (Json.str s) hb ht hsc]
    simp [pyInt, hint, Except.map]
  · intro s hb ht hsc hint
    rw [parseResponse_of_fields d sb tv (Json.str s) hb ht hsc]
    simp [pyInt, hint]
  · intro b hb ht hsc
    rw [parseResponse_of_fields d sb tv (Json.bool b) hb ht hsc]
    simp [pyInt, Except.map]
  · intro hb ht hsc
    rw [parseResponse_of_fields d sb tv Json.null hb ht hsc]
    simp [pyInt]

/-- Witness for the amended C8: the string "200" converts to the integer
200 and the non-numeric string "OK" fails with the ValueError carrying
it. -/
theorem c8_witness :
    Except.map (fun r => r.statuscode)
      (parseResponse [("body", Json.str ""), ("response_time_ms", Json.num 14),
        ("Status-Code", Json.str "200")]) = Except.ok (200 : Int) ∧
    parseResponse [("body", Json.str ""), ("response_time_ms", Json.num 14),
        ("Status-Code", Json.str "OK")] = Except.error (PyError.valueError "OK") := by
  constructor
  · exact (c8_statuscode_int_conversion _ "" (Json.num 14)).2.1 "200" 200 rfl rfl rfl rfl
  · exact (c8_statuscode_int_conversion _ "" (Json.num 14)).2.2.1 "OK" rfl rfl rfl rfl

/-- C9: the streaming loader catches nothing: after any run of good lines,
the first failing line surfaces its parse error to the consumer of the
generator, with only the earlier pairs yielded — while the batch loader on
the same lines swallows the error and keeps loading the remaining lines. -/
theorem c9_stdin_error_not_swallowed (h : Heap) (pre : List String) (line : String)
    (post : List String) (e : PyError)
    (hpre : ∀ l ∈ pre, tripleOk l = true)
    (hline : parseTriple line = Except.error e) :
    (∃ (h2 : Heap) (ps : List (Nat × Nat)),
      load_from_stdin h (pre ++ line :: post) = (h2, ps, some e) ∧
      ps.length = pre.length) ∧
    (∀ (path : String) (i : Nat) (h2 : Heap) (ps ss : List Nat) (ds : List Diag),
      loadFile h path (pre ++ line :: post) i = (h2, ps, ss, ds) →
      ps.length = pre.length + post.countP (fun l => tripleOk l)) := by
  constructor
  · exact stdin_propagation line post e hline pre hpre h
  · intro path i h2 ps ss ds heq
    obtain ⟨hl1, hcount, hl3, hl4, hl5⟩ :=
      loadFile_inv path (pre ++ line :: post) h i h2 ps ss ds heq
    have hlineF : tripleOk line = false := by
      unfold tripleOk
      rw [hline]
    have hpreLen : pre.countP (fun l => tripleOk l) = pre.length :=
      List.countP_eq_length.mpr (fun a ha => hpre a ha)
    rw [hcount, List.countP_append, hpreLen, List.countP_cons, hlineF]
    simp

set_option maxRecDepth 400000 in
/-- Witness for C9: streaming over a good line, a malformed line and a
good line stops with the decode error after one yielded pair, while the
batch loader loads two pairs from the same lines. -/
theorem c9_witness :
    (∃ (h2 : Heap) (ps : List (Nat × Nat)),
      load_from_stdin ⟨[], []⟩ [sampleLine, "nope", sampleLine] =
        (h2, ps, some PyError.jsonDecodeError) ∧ ps.length = 1) ∧
    (loadFile ⟨[], []⟩ "stdin.log" [sampleLine, "nope", sampleLine] 0).2.1.length = 2 := by
  have h := c9_stdin_error_not_swallowed ⟨[], []⟩ [sampleLine] "nope" [sampleLine]
    PyError.jsonDecodeError
    (by intro l hl; rw [List.mem_singleton] at hl; subst hl; rfl) (by rfl)
  constructor
  · exact h.1
  · have h2 := h.2 "stdin.log" 0
      (loadFile ⟨[], []⟩ "stdin.log" [sampleLine, "nope", sampleLine] 0).1
      (loadFile ⟨[], []⟩ "stdin.log" [sampleLine, "nope", sampleLine] 0).2.1
      (loadFile ⟨[], []⟩ "stdin.log" [sampleLine, "nope", sampleLine] 0).2.2.1
      (loadFile ⟨[], []⟩ "stdin.log" [sampleLine, "nope", sampleLine] 0).2.2.2 rfl
    rw [h2]
    rfl

/-- C10: response_time_ms is stored verbatim as latency, unvalidated and
unconverted: for any JSON value in that field, including a non-numeric
string, the extractor succeeds (given the other required fields) and the
latency is exactly the stored value — in contrast to Status-Code, which
goes through int() and can fail. -/
theorem c10_latency_stored_verbatim (d : List (String × Json)) (sb : String) (v : Json)
    (n : Int) (hb : getVal d "body" = some (Json.str sb))
    (ht : getVal d "response_time_ms" = some v)
    (hsc : getVal d "Status-Code" = some (Json.num n)) :
    Except.map (fun r => r.latency) (parseResponse d) = Except.ok v := by
  rw [parseResponse_of_fields d sb v (Json.num n) hb ht hsc]
  simp [pyInt, Except.map]

/-- Witness for C10: the non-numeric string "14" is accepted verbatim as
latency and raises nothing. -/
theorem c10_witness :
    Except.map (fun r => r.latency)
      (parseResponse [("body", Json.str ""), ("response_time_ms", Json.str "14"),
        ("Status-Code", Json.num 200)]) = Except.ok (Json.str "14") :=
  c10_latency_stored_verbatim _ "" (Json.str "14") 200 rfl rfl rfl

end TrafficComparator
